import Mathlib

/-!
Shallow embedding of the kherge/js.result library: the `Option` container
(src/src/option.ts, classes `None` and `Some`) and the `Result` container
(src/src/result/Err.ts, classes `Err` and `Ok`, plus `ResultError`), the
`attempt` helper, and the heap-level behavior of the mutating/allocating
operations (`replace`, `and`, `or`).

The two containers are closed variants over exactly two classes each, so they
are embedded as two-constructor inductives whose constructors carry the class
fields.  Methods dispatch on the receiver's class; each embedded method is one
Lean function matching on the case, with each branch translated from the body
of the corresponding class method.  Thrown errors are embedded as the `error`
case of `Except`; the two error classes of the source (`OptionError` in
src/src/option.ts and `ResultError` in src/src/result/ResultError.ts) become
the two constructors of `JsError`.
-/

namespace JsResult

/-- JS runtime values, as far as the rendering rules of `Err.unwrap` need to
distinguish them: numbers (modelled as integers), strings, booleans, `null`,
`undefined`, functions and symbols (identified by a tag), plain objects and
arrays. -/
inductive JsValue where
  | num (n : Int)
  | str (s : String)
  | bool (b : Bool)
  | null
  | undef
  | func (id : Nat)
  | sym (id : Nat)
  | obj (fields : List (String × JsValue))
  | arr (elems : List JsValue)

/-- The JS `typeof` operator restricted to the modelled universe.  Note that
`typeof null` is the string `"object"`. -/
def typeofJs : JsValue → String
  | .num _ => "number"
  | .str _ => "string"
  | .bool _ => "boolean"
  | .null => "object"
  | .undef => "undefined"
  | .func _ => "function"
  | .sym _ => "symbol"
  | .obj _ => "object"
  | .arr _ => "object"

/-- Values that `JSON.stringify` omits as object members and renders as
`null` as array elements: `undefined`, functions and symbols. -/
def jsonOmitted : JsValue → Bool
  | .undef => true
  | .func _ => true
  | .sym _ => true
  | _ => false

/-- Escaping of a single character inside a JSON string literal. -/
def jsonEscapeChar (c : Char) : String :=
  if c = '"' then "\\\""
  else if c = '\\' then "\\\\"
  else if c = '\n' then "\\n"
  else if c = '\t' then "\\t"
  else if c = '\r' then "\\r"
  else String.singleton c

/-- A JSON string literal: the characters escaped and surrounded by double
quotes. -/
def jsonEscape (s : String) : String :=
  "\"" ++ String.join (s.toList.map jsonEscapeChar) ++ "\""

mutual

/-- The JS `JSON.stringify`, restricted to the modelled universe.  Within
`Err.unwrap` it is only applied to values whose `typeof` is `"object"`
(`null`, plain objects and arrays); on the remaining values `JSON.stringify`
returns no string at all (JS `undefined`), which we render as the string
`"undefined"` since those cases are unreachable from `Err.unwrap`. -/
def jsonStringify : JsValue → String
  | .num n => toString n
  | .str s => jsonEscape s
  | .bool true => "true"
  | .bool false => "false"
  | .null => "null"
  | .undef => "undefined"
  | .func _ => "undefined"
  | .sym _ => "undefined"
  | .obj fields => "\x7b" ++ String.intercalate "," (jsonMembers fields) ++ "\x7d"
  | .arr elems => "[" ++ String.intercalate "," (jsonElements elems) ++ "]"

/-- Rendered members of a JSON object: members holding `undefined`, a function
or a symbol are omitted. -/
def jsonMembers : List (String × JsValue) → List String
  | [] => []
  | (k, v) :: rest =>
    if jsonOmitted v then jsonMembers rest
    else (jsonEscape k ++ ":" ++ jsonStringify v) :: jsonMembers rest

/-- Rendered elements of a JSON array: elements holding `undefined`, a function
or a symbol render as `null`. -/
def jsonElements : List JsValue → List String
  | [] => []
  | v :: rest =>
    (if jsonOmitted v then "null" else jsonStringify v) :: jsonElements rest

end

/-- The natural string conversion of a JS value (the abstract `ToString`
operation, as performed by `String(v)` or by the `Error` constructor on its
message argument). Only values whose `typeof` falls outside
`"function"`/`"object"`/`"symbol"` reach this conversion from `Err.unwrap`. -/
def jsToString : JsValue → String
  | .num n => toString n
  | .str s => s
  | .bool true => "true"
  | .bool false => "false"
  | .null => "null"
  | .undef => "undefined"
  | .func _ => "function"
  | .sym _ => "Symbol()"
  | .obj _ => "[object Object]"
  | .arr _ => ""

/-- The message stored by the JS `Error` constructor when handed the given
value: `ToString` of the value, except that an `undefined` argument leaves the
message property unset, i.e. the empty string (ECMAScript `Error(message)`
only sets the property when `message` is not `undefined`). -/
def errorCtorMessage (v : JsValue) : String :=
  match v with
  | .undef => ""
  | _ => jsToString v

/-- The two error classes of the library: `OptionError` (src/src/option.ts
lines 7-18) and `ResultError` (src/src/result/ResultError.ts), each carrying
its message. -/
inductive JsError where
  | optionError (message : String)
  | resultError (message : String)
deriving DecidableEq

/-- The class (constructor) a thrown error belongs to, observable in JS via
`instanceof` or the `name` property. -/
def JsError.className : JsError → String
  | .optionError _ => "OptionError"
  | .resultError _ => "ResultError"

/-- The Option container (src/src/option.ts): a closed variant over the two
classes `None` (line 489, no fields) and `Some` (line 585, one private field
`value : T`).  Every instance the library can produce is of exactly one of
the two classes. -/
inductive Opt (T : Type) where
  | None
  | Some (value : T)
deriving DecidableEq

/-- The Result container (src/src/result/Err.ts): a closed variant over the
two classes `Err` (line 11, one private field `value : E`) and `Ok`
(one private field `value : T`). -/
inductive Res (T E : Type) where
  | Ok (value : T)
  | Err (value : E)
deriving DecidableEq

namespace Opt

variable {T U E : Type}

/-- isNone: `None.isNone` (src/src/option.ts line 502) returns `true`;
`Some.isNone` (line 609) returns `false`. -/
def isNone : Opt T → Bool
  | .None => true
  | .Some _ => false

/-- isSome: `None.isSome` (src/src/option.ts line 506) returns `false`;
`Some.isSome` (line 613) returns `true`. -/
def isSome : Opt T → Bool
  | .None => false
  | .Some _ => true

/-- map: `None.map` (line 510) returns `new None()` without touching the
callback; `Some.map` (line 617) returns `new Some(fn(this.value))`. -/
def map (self : Opt T) (fn : T → U) : Opt U :=
  match self with
  | .None => .None
  | .Some v => .Some (fn v)

/-- andThen: `None.andThen` (line 494) returns `new None()` without touching
the callback; `Some.andThen` (line 597) returns `fn(this.value)`. -/
def andThen (self : Opt T) (fn : T → Opt U) : Opt U :=
  match self with
  | .None => .None
  | .Some v => fn v

/-- filter: `None.filter` (line 498) returns `new None()` without touching the
predicate; `Some.filter` (line 601) returns `this` when the predicate holds of
the value and `new None()` otherwise. -/
def filter (self : Opt T) (predicate : T → Bool) : Opt T :=
  match self with
  | .None => .None
  | .Some v => if predicate v then .Some v else .None

/-- mapOr: `None.mapOr` (line 514) returns the default without touching the
callback; `Some.mapOr` (line 621) returns `fn(this.value)`. -/
def mapOr (self : Opt T) (def_ : U) (fn : T → U) : U :=
  match self with
  | .None => def_
  | .Some v => fn v

/-- okOr: `None.okOr` (line 522) returns `err(error)`; `Some.okOr` (line 629)
returns `ok(this.value)` and ignores the error argument. -/
def okOr (self : Opt T) (error : E) : Res T E :=
  match self with
  | .None => .Err error
  | .Some v => .Ok v

/-- unwrap: `None.unwrap` (line 544) throws
`new OptionError('No value to unwrap.')`; `Some.unwrap` (line 653) returns
`this.value`. -/
def unwrap : Opt T → Except JsError T
  | .None => .error (.optionError "No value to unwrap.")
  | .Some v => .ok v

/-- Option.map with an instrumented callback: the pure result paired with the
number of times the callback is applied (each application of `fn` in the
source body adds one; the `None` branch contains no application). -/
def mapCount (self : Opt T) (fn : T → U) : Opt U × Nat :=
  match self with
  | .None => (.None, 0)
  | .Some v => (.Some (fn v), 1)

/-- Option.andThen with an instrumented callback (see `mapCount`). -/
def andThenCount (self : Opt T) (fn : T → Opt U) : Opt U × Nat :=
  match self with
  | .None => (.None, 0)
  | .Some v => (fn v, 1)

/-- Option.filter with an instrumented predicate (see `mapCount`). -/
def filterCount (self : Opt T) (predicate : T → Bool) : Opt T × Nat :=
  match self with
  | .None => (.None, 0)
  | .Some v => (if predicate v then .Some v else .None, 1)

/-- Option.mapOr with an instrumented callback (see `mapCount`); the default
argument is a plain value, not a callback. -/
def mapOrCount (self : Opt T) (def_ : U) (fn : T → U) : U × Nat :=
  match self with
  | .None => (def_, 0)
  | .Some v => (fn v, 1)

end Opt

namespace Res

variable {T U E : Type}

/-- isOk: `Err.isOk` (src/src/result/Err.ts line 43) returns `false`;
`Ok.isOk` returns `true`. -/
def isOk : Res T E → Bool
  | .Ok _ => true
  | .Err _ => false

/-- isErr: `Err.isErr` (src/src/result/Err.ts line 39) returns `true`;
`Ok.isErr` returns `false`. -/
def isErr : Res T E → Bool
  | .Ok _ => false
  | .Err _ => true

/-- map: `Err.map` (line 47) returns `new Err(this.value)` without touching
the callback; `Ok.map` returns `new Ok(fn(this.value))`. -/
def map (self : Res T E) (fn : T → U) : Res U E :=
  match self with
  | .Ok v => .Ok (fn v)
  | .Err e => .Err e

/-- andThen: `Err.andThen` (line 23) returns `new Err(this.value)` without
touching the callback; `Ok.andThen` returns `other(this.value)`. -/
def andThen (self : Res T E) (other : T → Res U E) : Res U E :=
  match self with
  | .Ok v => other v
  | .Err e => .Err e

/-- mapOr: `Err.mapOr` (line 55) returns the default without touching the
callback; `Ok.mapOr` returns `fn(this.value)`. -/
def mapOr (self : Res T E) (def_ : U) (fn : T → U) : U :=
  match self with
  | .Ok v => fn v
  | .Err _ => def_

/-- ok (projection): `Err.ok` (line 63) returns `none()`; `Ok.ok` returns
`some(this.value)`. -/
def ok : Res T E → Opt T
  | .Ok v => .Some v
  | .Err _ => .None

/-- err (projection): `Err.err` (line 27) returns `some(this.value)`;
`Ok.err` returns `none()`. -/
def err : Res T E → Opt E
  | .Ok _ => .None
  | .Err e => .Some e

/-- The message of the `ResultError` thrown by `Err.unwrap`
(src/src/result/Err.ts lines 75-97): a switch on `typeof this.value` picks
`"[Function]"` for functions, `JSON.stringify(this.value)` for object-typed
values, `"[Symbol]"` for symbols, and otherwise passes the raw value to the
`ResultError` constructor, whose `Error` superclass stores its `ToString`
(the empty string for `undefined`). -/
def errMessage (v : JsValue) : String :=
  match typeofJs v with
  | "function" => "[Function]"
  | "object" => jsonStringify v
  | "symbol" => "[Symbol]"
  | _ => errorCtorMessage v

/-- unwrap: `Err.unwrap` (lines 75-97) throws a `ResultError` whose message is
`errMessage` of the payload; `Ok.unwrap` returns `this.value`. -/
def unwrap : Res T JsValue → Except JsError T
  | .Ok v => .ok v
  | .Err e => .error (.resultError (errMessage e))

/-- unwrapErr: `Err.unwrapErr` (line 99) returns `this.value`; `Ok.unwrapErr`
throws `new ResultError('There is no Err value to unwrap.')`. -/
def unwrapErr : Res T E → Except JsError E
  | .Ok _ => .error (.resultError "There is no Err value to unwrap.")
  | .Err e => .ok e

/-- expect: `Err.expect` (line 31) throws `new ResultError(error)` with the
caller-supplied message; `Ok.expect` returns `this.value`. -/
def expect (self : Res T E) (error : String) : Except JsError T :=
  match self with
  | .Ok v => .ok v
  | .Err _ => .error (.resultError error)

/-- expectErr: `Err.expectErr` (line 35) returns `this.value`;
`Ok.expectErr` throws `new ResultError(error)` with the caller-supplied
message. -/
def expectErr (self : Res T E) (error : String) : Except JsError E :=
  match self with
  | .Ok _ => .error (.resultError error)
  | .Err e => .ok e

/-- Result.map with an instrumented callback (each application of `fn` in the
source body adds one; the `Err` branch contains no application). -/
def mapCount (self : Res T E) (fn : T → U) : Res U E × Nat :=
  match self with
  | .Ok v => (.Ok (fn v), 1)
  | .Err e => (.Err e, 0)

/-- Result.andThen with an instrumented callback (see `mapCount`). -/
def andThenCount (self : Res T E) (other : T → Res U E) : Res U E × Nat :=
  match self with
  | .Ok v => (other v, 1)
  | .Err e => (.Err e, 0)

/-- Result.mapOr with an instrumented callback (see `mapCount`). -/
def mapOrCount (self : Res T E) (def_ : U) (fn : T → U) : U × Nat :=
  match self with
  | .Ok v => (fn v, 1)
  | .Err _ => (def_, 0)

end Res

/-- The attempt helper (src/unnamed/part_004 lines 45-51): the given
zero-argument function is invoked once inside a try block; normal completion
with `v` yields `ok(v)`, and any raised value `e` is caught and yields
`err(e)` with the caught value unmodified.  A possibly-throwing zero-argument
function is embedded as its outcome: `Except.ok v` for normal completion,
`Except.error e` for raising `e`. -/
def attempt {T E : Type} (fn : Except E T) : Res T E :=
  match fn with
  | .ok v => .Ok v
  | .error e => .Err e

/-- The attempt helper with the function invocation counted: `fn()` occurs
exactly once in the source, inside the try block, and is evaluated exactly
once on every call. -/
def attemptCount {T E : Type} (fn : Except E T) : Res T E × Nat :=
  (attempt fn, 1)

/-- A heap-allocated Option instance: its object identity (address) together
with its current class and fields.  Operations that allocate (`new`) take the
next unused address and return the incremented allocator; a well-formed heap
has every live address below the allocator. -/
structure OptObj (T : Type) where
  addr : Nat
  state : Opt T

/-- replace, at the heap level, returning (receiver after the call, the
returned option, the advanced allocator).
`Some.replace` (src/src/option.ts lines 645-651) builds `new Some(this.value)`
holding the old value, assigns `this.value = value`, and returns the new
object; `None.replace` (lines 538-542) runs
`Object.setPrototypeOf(this, Some.prototype).value = value`, turning the
receiver itself into a `Some` holding the value, and returns `new None()`.
In both cases the receiver keeps its address (the mutation is in place) and
the returned option is a fresh allocation whose state equals the receiver's
old state. -/
def OptObj.replace {T : Type} (self : OptObj T) (value : T) (next : Nat) :
    OptObj T × OptObj T × Nat :=
  match self.state with
  | .Some u => (⟨self.addr, .Some value⟩, ⟨next, .Some u⟩, next + 1)
  | .None => (⟨self.addr, .Some value⟩, ⟨next, .None⟩, next + 1)

/-- A heap-allocated Result instance (see `OptObj`). -/
structure ResObj (T E : Type) where
  addr : Nat
  state : Res T E

/-- and, at the heap level, returning (result, advanced allocator).
`Err.and` (src/src/result/Err.ts lines 19-21) returns `new Err(this.value)`,
a fresh allocation holding the receiver's error payload; `Ok.and` returns the
`other` argument itself. -/
def ResObj.and {T E : Type} (self : ResObj T E) (other : ResObj T E)
    (next : Nat) : ResObj T E × Nat :=
  match self.state with
  | .Err e => (⟨next, .Err e⟩, next + 1)
  | .Ok _ => (other, next)

/-- or, at the heap level, returning (result, advanced allocator).
`Ok.or` (src/src/result/Err.ts Ok class, lines 179-181) returns
`new Ok(this.value)`, a fresh allocation holding the receiver's success
payload; `Err.or` (lines 67-69) returns the `def` argument itself. -/
def ResObj.or {T E : Type} (self : ResObj T E) (other : ResObj T E)
    (next : Nat) : ResObj T E × Nat :=
  match self.state with
  | .Ok v => (⟨next, .Ok v⟩, next + 1)
  | .Err _ => (other, next)

/-- The rendering rule for the message of a failed `unwrap()` exactly as the
spec states it: a function payload renders as "[Function]", a symbol payload
renders as "[Symbol]", an object payload renders as its canonical JSON form,
and every other payload renders via its natural string conversion.  This is a
spec-side definition, written from the spec's words, to be compared with the
code-side `Res.errMessage`. -/
def renderRuleSpec (v : JsValue) : String :=
  if typeofJs v = "function" then "[Function]"
  else if typeofJs v = "symbol" then "[Symbol]"
  else if typeofJs v = "object" then jsonStringify v
  else jsToString v

/-- The spec's rendering rule amended at the single point the code forces:
an `undefined` payload renders as the empty string (the `Error` constructor
ignores an `undefined` message argument), not as its natural string
conversion "undefined".  Every other payload renders as the spec states. -/
def renderRuleAmended (v : JsValue) : String :=
  match v with
  | .undef => ""
  | _ => renderRuleSpec v

/-! ## Theorems settling the claims -/

/-- C1: for every Optional instance exactly one of `isSome()`/`isNone()`
(the code's names for isPresent/isAbsent) returns true, and for every Result
instance exactly one of `isOk()`/`isErr()` returns true.  The containers are
closed variants over exactly two classes, which the embedding reflects as
two-constructor inductives, so the case analysis is exhaustive: there is no
third state for any instance produced by any constructor or operation. -/
theorem c1_exactly_one_case :
    (∀ (T : Type) (o : Opt T),
      (o.isSome = true ∧ o.isNone = false) ∨
      (o.isSome = false ∧ o.isNone = true)) ∧
    (∀ (T E : Type) (r : Res T E),
      (r.isOk = true ∧ r.isErr = false) ∨
      (r.isOk = false ∧ r.isErr = true)) := by
  constructor
  · intro T o
    cases o
    · exact Or.inr ⟨rfl, rfl⟩
    · exact Or.inl ⟨rfl, rfl⟩
  · intro T E r
    cases r
    · exact Or.inl ⟨rfl, rfl⟩
    · exact Or.inr ⟨rfl, rfl⟩

/-- C2: on an Absent Optional receiver, `map`, `andThen`, `filter` and
`mapOr` never invoke their callback (count 0), and on a Failure Result
receiver, `map`, `andThen` and `mapOr` never invoke their callback (count 0);
in every case the outcome is a fixed value not depending on the callback
argument, which is universally quantified. -/
theorem c2_short_circuit_callbacks_not_invoked :
    ∀ (T U E : Type) (f : T → U) (fo : T → Opt U) (p : T → Bool) (d : U)
      (fr : T → Res U E) (e : E),
      Opt.mapCount (.None : Opt T) f = (.None, 0) ∧
      Opt.andThenCount (.None : Opt T) fo = (.None, 0) ∧
      Opt.filterCount (.None : Opt T) p = (.None, 0) ∧
      Opt.mapOrCount (.None : Opt T) d f = (d, 0) ∧
      Res.mapCount (.Err e : Res T E) f = (.Err e, 0) ∧
      Res.andThenCount (.Err e : Res T E) fr = (.Err e, 0) ∧
      Res.mapOrCount (.Err e : Res T E) d f = (d, 0) := by
  intro T U E f fo p d fr e
  exact ⟨rfl, rfl, rfl, rfl, rfl, rfl, rfl⟩

/-- C3: `replace(v)` mutates the receiver in place (the receiver keeps its
address and is afterwards `Some v`); it returns a freshly allocated option
whose state is the receiver's old state — a new `Some` holding the old value
when the receiver was `Some`, a new `None` when it was `None` — and it is
total, failing on neither case (the `None` branch converts the receiver via
`Object.setPrototypeOf` rather than throwing). -/
theorem c3_replace_in_place (T : Type) (a next : Nat) (st : Opt T) (v : T)
    (h : a < next) :
    (OptObj.replace ⟨a, st⟩ v next).1.addr = a ∧
    (OptObj.replace ⟨a, st⟩ v next).1.state = .Some v ∧
    (OptObj.replace ⟨a, st⟩ v next).2.1.state = st ∧
    (OptObj.replace ⟨a, st⟩ v next).2.1.addr ≠ a := by
  cases st <;> exact ⟨rfl, rfl, rfl, by simp [OptObj.replace]; omega⟩

/-- Witness for C3 at a concrete input: an Absent receiver at address 0,
replaced with the value 7 under allocator 1. -/
theorem c3_replace_in_place_witness :
    (0 : Nat) < 1 ∧
    ((OptObj.replace (⟨0, .None⟩ : OptObj Nat) 7 1).1.addr = 0 ∧
     (OptObj.replace (⟨0, .None⟩ : OptObj Nat) 7 1).1.state = .Some 7 ∧
     (OptObj.replace (⟨0, .None⟩ : OptObj Nat) 7 1).2.1.state = .None ∧
     (OptObj.replace (⟨0, .None⟩ : OptObj Nat) 7 1).2.1.addr ≠ 0) :=
  ⟨by decide, c3_replace_in_place Nat 0 1 .None 7 (by decide)⟩

/-- C4: `attempt(fn)` invokes `fn` exactly once and never itself raises (its
embedding is a total function into `Res`): normal completion with `v` yields
exactly `Ok v`, and a raised value `e` of any type yields `Err e` with the
caught value unmodified. -/
theorem c4_attempt_once_catch_all :
    ∀ (T E : Type) (v : T) (e : E) (fn : Except E T),
      attempt (Except.ok v : Except E T) = Res.Ok v ∧
      attempt (Except.error e : Except E T) = Res.Err e ∧
      (attemptCount fn).2 = 1 ∧
      (attemptCount fn).1 = attempt fn := by
  intro T E v e fn
  exact ⟨rfl, rfl, rfl, rfl⟩

/-- C5: the round trip through Result and back preserves the payload:
`present(v).okOr(e).ok().unwrap()` is exactly `v` and
`absent().okOr(e).err().unwrap()` is exactly `e`. -/
theorem c5_round_trip_through_result :
    ∀ (T E : Type) (v : T) (e : E),
      ((Opt.Some v).okOr e).ok.unwrap = Except.ok v ∧
      ((Opt.None : Opt T).okOr e).err.unwrap = Except.ok e := by
  intro T E v e
  exact ⟨rfl, rfl⟩

/-- C6 counterexample: for the Failure holding the scalar payload
`undefined`, `unwrap()` raises a `ResultError` whose message is the empty
string, while the spec's rule renders every non-function, non-symbol,
non-object payload via its natural string conversion, which for `undefined`
is the string "undefined".  The claim as stated is therefore false at this
input. -/
theorem c6_counterexample_undefined_payload :
    (Res.Err JsValue.undef : Res Nat JsValue).unwrap =
      Except.error (JsError.resultError "") ∧
    renderRuleSpec JsValue.undef = "undefined" ∧
    ("" : String) ≠ "undefined" := by
  exact ⟨rfl, by decide, by decide⟩

/-- C6 (amended): for every Failure Result, `unwrap()` raises a `ResultError`
whose message is derived from the payload by type exactly as the spec's rule
states — "[Function]" for functions, "[Symbol]" for symbols, canonical JSON
for object-typed payloads, natural string conversion for other scalars —
except that an `undefined` payload renders as the empty string. -/
theorem c6_unwrap_message_rendering :
    ∀ (T : Type) (e : JsValue),
      (Res.Err e : Res T JsValue).unwrap =
        Except.error (JsError.resultError (renderRuleAmended e)) := by
  intro T e
  cases e <;> rfl

/-- C7: `f.and(other)` on a Failure `f` returns a freshly allocated Failure
holding `f`'s error payload — its address differs from both `f`'s and
`other`'s — and `s.or(other)` on a Success `s` returns a freshly allocated
Success holding `s`'s value, whose address differs from `s`'s. -/
theorem c7_and_or_return_copies (T E : Type) (e : E) (v : T)
    (a b next : Nat) (ost : Res T E) (h1 : a < next) (h2 : b < next) :
    ((ResObj.and ⟨a, .Err e⟩ ⟨b, ost⟩ next).1.addr ≠ a ∧
     (ResObj.and ⟨a, .Err e⟩ ⟨b, ost⟩ next).1.addr ≠ b ∧
     (ResObj.and ⟨a, .Err e⟩ ⟨b, ost⟩ next).1.state = .Err e) ∧
    ((ResObj.or ⟨a, .Ok v⟩ ⟨b, ost⟩ next).1.addr ≠ a ∧
     (ResObj.or ⟨a, .Ok v⟩ ⟨b, ost⟩ next).1.state = .Ok v) := by
  refine ⟨⟨?_, ?_, rfl⟩, ?_, rfl⟩ <;> simp [ResObj.and, ResObj.or] <;> omega

/-- Witness for C7 at concrete inputs: a Failure at address 0 combined with a
Success at address 1 under allocator 2, and symmetrically for `or`. -/
theorem c7_and_or_return_copies_witness :
    (0 : Nat) < 2 ∧ (1 : Nat) < 2 ∧
    (((ResObj.and (⟨0, .Err 3⟩ : ResObj Nat Nat) ⟨1, .Ok 9⟩ 2).1.addr ≠ 0 ∧
      (ResObj.and (⟨0, .Err 3⟩ : ResObj Nat Nat) ⟨1, .Ok 9⟩ 2).1.addr ≠ 1 ∧
      (ResObj.and (⟨0, .Err 3⟩ : ResObj Nat Nat) ⟨1, .Ok 9⟩ 2).1.state =
        .Err 3) ∧
     ((ResObj.or (⟨0, .Ok 5⟩ : ResObj Nat Nat) ⟨1, .Ok 9⟩ 2).1.addr ≠ 0 ∧
      (ResObj.or (⟨0, .Ok 5⟩ : ResObj Nat Nat) ⟨1, .Ok 9⟩ 2).1.state =
        .Ok 5)) :=
  ⟨by decide, by decide,
    c7_and_or_return_copies Nat Nat 3 5 0 1 2 (.Ok 9) (by decide) (by decide)⟩

/-- C8: mapping the identity function over either container is observationally
equivalent to the receiver: the result has the same case and the same payload
(it is the same value of the embedding, hence behaves identically under every
subsequent operation). -/
theorem c8_map_identity_law :
    (∀ (T : Type) (o : Opt T), o.map id = o) ∧
    (∀ (T E : Type) (r : Res T E), r.map id = r) := by
  constructor
  · intro T o; cases o <;> rfl
  · intro T E r; cases r <;> rfl

/-- C9 counterexample: the failure conditions of invalid unwrap attempts on
Result all raise the same error class `ResultError`, not four distinct types:
`unwrap()` on a Failure holding the string "boom" and `expect("boom")` on a
Failure raise literally identical errors, and `unwrapErr()` on a Success
raises an error of the same class.  The claim's distinct-type taxonomy
(UnwrappedFailureError, UnwrappedSuccessError, UnmetExpectationError) does
not exist in the code. -/
theorem c9_counterexample_shared_error_class :
    (Res.Err (JsValue.str "boom") : Res Nat JsValue).unwrap =
      Except.error (JsError.resultError "boom") ∧
    (Res.Err (JsValue.num 0) : Res Nat JsValue).expect "boom" =
      Except.error (JsError.resultError "boom") ∧
    (Res.Ok 0 : Res Nat JsValue).unwrapErr =
      Except.error (JsError.resultError "There is no Err value to unwrap.") ∧
    JsError.className (JsError.resultError "boom") =
      JsError.className
        (JsError.resultError "There is no Err value to unwrap.") := by
  exact ⟨rfl, rfl, rfl, rfl⟩

/-- C9 (amended): the four failure conditions are distinct conditions but
raise only two error classes: `Optional.unwrap()` on Absent raises
`OptionError` ("No value to unwrap."), while `Result.unwrap()` on Failure,
`unwrapErr()` on Success, and `expect()`/`expectErr()` on the mismatched case
all raise `ResultError`; the Optional error class is distinct from the Result
error class, and the error raised by `expect()`/`expectErr()` carries exactly
the caller-supplied message string. -/
theorem c9_error_taxonomy :
    ∀ (T E : Type) (e : JsValue) (e2 : E) (v : T) (msg : String),
      (Opt.None : Opt T).unwrap =
        Except.error (JsError.optionError "No value to unwrap.") ∧
      (Res.Err e : Res T JsValue).unwrap =
        Except.error (JsError.resultError (Res.errMessage e)) ∧
      (Res.Ok v : Res T E).unwrapErr =
        Except.error
          (JsError.resultError "There is no Err value to unwrap.") ∧
      (Res.Err e2 : Res T E).expect msg =
        Except.error (JsError.resultError msg) ∧
      (Res.Ok v : Res T E).expectErr msg =
        Except.error (JsError.resultError msg) ∧
      JsError.className (JsError.optionError "No value to unwrap.") ≠
        JsError.className (JsError.resultError msg) := by
  intro T E e e2 v msg
  refine ⟨rfl, rfl, rfl, rfl, rfl, ?_⟩
  show ("OptionError" : String) ≠ "ResultError"
  decide

/-- C10: for the Failure constructed as `err(null)`, `unwrap()` raises an
error whose message is the four-character string "null": `typeof null` is
"object", so the null payload takes the object branch of the rendering switch
and is serialized by `JSON.stringify`, which renders it as "null". -/
theorem c10_null_payload_json_branch :
    (Res.Err JsValue.null : Res Nat JsValue).unwrap =
      Except.error (JsError.resultError "null") ∧
    typeofJs JsValue.null = "object" ∧
    jsonStringify JsValue.null = "null" :=
  ⟨rfl, rfl, rfl⟩

end JsResult
